import Mathlib

/-!
Verification of the TimeCapsule geospatial-anchoring and gesture-interaction
core against its natural-language specification.

The embedding below is a shallow model of the TypeScript source:

* `detectGesture` (src/components/ARView.tsx, lines 214-274): the per-frame
  gesture classifier.  MediaPipe hand landmarks carry `x`, `y`, `z`
  components, but `detectGesture` reads only `x` and `y`, so a landmark is
  modelled as a planar point with rational coordinates.  The source compares
  `Math.sqrt(dx^2 + dy^2) < palmSize * r`; since both sides are nonnegative
  this is equivalent to comparing the squared distance against
  `palmSizeSq * r^2`, which is what the executable embedding does (the
  equivalence with the square-root phrasing is proved in
  `lt_mul_sq_iff_sqrt_lt_mul` and used in the claim theorems).
* JavaScript array indexing `landmarks[i]` yields `undefined` when `i` is out
  of bounds, and the subsequent `.x` field access throws a `TypeError`.  This
  is modelled by `Except Unit`: a missing landmark index produces
  `Except.error ()`.
* The `hands.onResults` callback (ARView.tsx, lines 111-133): when
  `multiHandLandmarks` is empty the code calls `setHandGesture('NONE')`;
  otherwise it runs `detectGesture` on the (single, `maxNumHands: 1`) hand.
-/

set_option maxHeartbeats 1000000

deriving instance DecidableEq for Except

namespace TimeCapsule

/-- WGS84 coordinate pair, degrees (src `types.ts` / spec section 3). -/
structure Coordinates where
  latitude : ℚ
  longitude : ℚ
deriving DecidableEq

/-- A capsule entity; only the fields the verified core reads are modelled
(`id`, `coordinates`). -/
structure Capsule where
  id : ℕ
  coordinates : Coordinates
deriving DecidableEq

/-- The gesture state enum of ARView.tsx (`'OPEN' | 'CLOSED' | 'NONE'`).
A raw per-frame classification of `NONE` means "ambiguous". -/
inductive GestureState where
  | NONE
  | OPEN
  | CLOSED
deriving DecidableEq

/-- One hand landmark as read by `detectGesture`: only the `x` and `y`
components are ever accessed by the source. -/
structure Landmark where
  x : ℚ
  y : ℚ
deriving DecidableEq

/-- Squared planar euclidean distance; the source computes
`Math.sqrt` of exactly this quantity. -/
def distSq (p q : Landmark) : ℚ :=
  (p.x - q.x) ^ 2 + (p.y - q.y) ^ 2

/-- `1.6^2`: the non-thumb fold ratio of ARView.tsx line 239, squared so the
comparison can be carried out on squared distances. -/
def nonThumbRatioSq : ℚ := 64 / 25

/-- `1.3^2`: the thumb fold ratio of ARView.tsx line 250, squared. -/
def thumbRatioSq : ℚ := 169 / 100

/-- The folded-finger count of `detectGesture` (ARView.tsx lines 224-252):
each of the four non-thumb tips contributes 1 when its (squared) distance to
the wrist is below `palmSizeSq * 1.6^2`, the thumb when below
`palmSizeSq * 1.3^2`. -/
def foldedFingers (wrist middleMCP t8 t12 t16 t20 thumbTip : Landmark) : ℕ :=
  let palmSq := distSq middleMCP wrist
  (if distSq t8 wrist < palmSq * nonThumbRatioSq then 1 else 0) +
  (if distSq t12 wrist < palmSq * nonThumbRatioSq then 1 else 0) +
  (if distSq t16 wrist < palmSq * nonThumbRatioSq then 1 else 0) +
  (if distSq t20 wrist < palmSq * nonThumbRatioSq then 1 else 0) +
  (if distSq thumbTip wrist < palmSq * thumbRatioSq then 1 else 0)

/-- The raw classification of `detectGesture` (ARView.tsx lines 254-264):
`foldedFingers >= 4` gives `CLOSED`, `<= 1` gives `OPEN`, otherwise the
`newState` stays `'NONE'` (ambiguous). -/
def classifyLandmarks (wrist middleMCP t8 t12 t16 t20 thumbTip : Landmark) : GestureState :=
  let n := foldedFingers wrist middleMCP t8 t12 t16 t20 thumbTip
  if 4 ≤ n then .CLOSED else if n ≤ 1 then .OPEN else .NONE

/-- Raw classification of a whole landmark frame.  The source reads
`landmarks[0]`, `landmarks[9]`, `landmarks[8]`, `landmarks[12]`,
`landmarks[16]`, `landmarks[20]`, `landmarks[4]`; a missing index makes the
JavaScript field access throw, modelled by `Except.error ()`. -/
def detectGestureClassify (f : List Landmark) : Except Unit GestureState :=
  match f.get? 0, f.get? 9, f.get? 8, f.get? 12, f.get? 16, f.get? 20, f.get? 4 with
  | some wrist, some middleMCP, some t8, some t12, some t16, some t20, some thumbTip =>
      .ok (classifyLandmarks wrist middleMCP t8 t12 t16 t20 thumbTip)
  | _, _, _, _, _, _, _ => .error ()

/-- The confirmed-state transition of `detectGesture` (ARView.tsx lines
266-273): `setHandGesture(newState)` runs only when `newState !== 'NONE' &&
newState !== handGesture`.  Returns the new confirmed state together with the
emitted state change (`none` when no `setHandGesture` call happens). -/
def gestureStep (prev newState : GestureState) :
    GestureState × Option GestureState :=
  if newState ≠ .NONE ∧ newState ≠ prev then (newState, some newState)
  else (prev, none)

/-- One full run of `detectGesture` on a frame, starting from the confirmed
state `prev`. -/
def detectGestureRun (f : List Landmark) (prev : GestureState) :
    Except Unit (GestureState × Option GestureState) :=
  match detectGestureClassify f with
  | .ok c => .ok (gestureStep prev c)
  | .error e => .error e

/-- One perception tick of the `hands.onResults` callback (ARView.tsx lines
111-133), restricted to the gesture state (`maxNumHands: 1`, so the input is
either "no hand" or a single landmark list).  On "no hand" the source calls
`setHandGesture('NONE')` unconditionally. -/
def perceptionTick (input : Option (List Landmark)) (prev : GestureState) :
    Except Unit (GestureState × Option GestureState) :=
  match input with
  | none => .ok (.NONE, some .NONE)
  | some f => detectGestureRun f prev

/-- Planar euclidean distance between two landmarks, as the source's
`Math.sqrt(Math.pow(dx,2) + Math.pow(dy,2))`. -/
noncomputable def euclideanDistance (p q : Landmark) : ℝ :=
  Real.sqrt ((distSq p q : ℚ) : ℝ)

/-- Comparing squared quantities is equivalent to comparing the square roots:
`a < b * r^2  ↔  √a < √b * r` for nonnegative `a`, `b`, `r`. -/
theorem lt_mul_sq_iff_sqrt_lt_mul {a b r : ℝ} (ha : 0 ≤ a) (hb : 0 ≤ b)
    (hr : 0 ≤ r) : a < b * r ^ 2 ↔ Real.sqrt a < Real.sqrt b * r := by
  rw [show Real.sqrt b * r = Real.sqrt (b * r ^ 2) by
        rw [Real.sqrt_mul hb, Real.sqrt_sq hr],
      Real.sqrt_lt_sqrt_iff ha]

theorem distSq_nonneg (p q : Landmark) : (0 : ℚ) ≤ distSq p q := by
  unfold distSq
  positivity

/-- Claim C1: for every well-formed 21-landmark frame, `detectGesture`
computes `palmSize` as the euclidean distance from the wrist (index 0) to the
middle-finger base knuckle (index 9), counts a non-thumb fingertip (indices
8, 12, 16, 20) as folded exactly when its distance to the wrist is
`< palmSize * 1.6`, counts the thumb tip (index 4) as folded exactly when its
distance to the wrist is `< palmSize * 1.3`, and classifies the frame as
`CLOSED` when `foldedCount >= 4`, `OPEN` when `foldedCount <= 1`, and
ambiguous (`NONE`, no definitive classification) when `foldedCount` is 2
or 3. -/
theorem detectGesture_classification (f : List Landmark) (hlen : f.length = 21)
    (wrist middleMCP t8 t12 t16 t20 thumbTip : Landmark)
    (h0 : f.get? 0 = some wrist) (h9 : f.get? 9 = some middleMCP)
    (h8 : f.get? 8 = some t8) (h12 : f.get? 12 = some t12)
    (h16 : f.get? 16 = some t16) (h20 : f.get? 20 = some t20)
    (h4 : f.get? 4 = some thumbTip) :
    (∀ tip ∈ [t8, t12, t16, t20],
      (distSq tip wrist < distSq middleMCP wrist * nonThumbRatioSq ↔
        euclideanDistance tip wrist < euclideanDistance middleMCP wrist * 1.6)) ∧
    ((distSq thumbTip wrist < distSq middleMCP wrist * thumbRatioSq) ↔
      euclideanDistance thumbTip wrist < euclideanDistance middleMCP wrist * 1.3) ∧
    detectGestureClassify f =
      .ok (classifyLandmarks wrist middleMCP t8 t12 t16 t20 thumbTip) ∧
    (detectGestureClassify f = .ok .CLOSED ↔
      4 ≤ foldedFingers wrist middleMCP t8 t12 t16 t20 thumbTip) ∧
    (detectGestureClassify f = .ok .OPEN ↔
      foldedFingers wrist middleMCP t8 t12 t16 t20 thumbTip ≤ 1) ∧
    (detectGestureClassify f = .ok .NONE ↔
      (foldedFingers wrist middleMCP t8 t12 t16 t20 thumbTip = 2 ∨
        foldedFingers wrist middleMCP t8 t12 t16 t20 thumbTip = 3)) := by
  have hnt : ∀ t : Landmark,
      (distSq t wrist < distSq middleMCP wrist * nonThumbRatioSq ↔
        euclideanDistance t wrist < euclideanDistance middleMCP wrist * 1.6) := by
    intro t
    have h1 := lt_mul_sq_iff_sqrt_lt_mul
      (a := ((distSq t wrist : ℚ) : ℝ)) (b := ((distSq middleMCP wrist : ℚ) : ℝ))
      (r := (1.6 : ℝ))
      (by exact_mod_cast distSq_nonneg t wrist)
      (by exact_mod_cast distSq_nonneg middleMCP wrist) (by norm_num)
    refine Iff.trans ?_ h1
    rw [show ((1.6 : ℝ)) ^ 2 = ((nonThumbRatioSq : ℚ) : ℝ) by
      norm_num [nonThumbRatioSq]]
    norm_cast
  have hth : (distSq thumbTip wrist < distSq middleMCP wrist * thumbRatioSq ↔
      euclideanDistance thumbTip wrist < euclideanDistance middleMCP wrist * 1.3) := by
    have h1 := lt_mul_sq_iff_sqrt_lt_mul
      (a := ((distSq thumbTip wrist : ℚ) : ℝ))
      (b := ((distSq middleMCP wrist : ℚ) : ℝ)) (r := (1.3 : ℝ))
      (by exact_mod_cast distSq_nonneg thumbTip wrist)
      (by exact_mod_cast distSq_nonneg middleMCP wrist) (by norm_num)
    refine Iff.trans ?_ h1
    rw [show ((1.3 : ℝ)) ^ 2 = ((thumbRatioSq : ℚ) : ℝ) by
      norm_num [thumbRatioSq]]
    norm_cast
  have hc : detectGestureClassify f =
      .ok (classifyLandmarks wrist middleMCP t8 t12 t16 t20 thumbTip) := by
    unfold detectGestureClassify
    rw [h0, h9, h8, h12, h16, h20, h4]
  refine ⟨?_, hth, hc, ?_, ?_, ?_⟩
  · intro tip htip
    exact hnt tip
  all_goals
    rw [hc]
    simp only [Except.ok.injEq]
    unfold classifyLandmarks
    by_cases hA : 4 ≤ foldedFingers wrist middleMCP t8 t12 t16 t20 thumbTip <;>
      by_cases hB : foldedFingers wrist middleMCP t8 t12 t16 t20 thumbTip ≤ 1 <;>
        simp only [hA, hB, if_true, if_false, if_pos, if_neg, not_false_iff] <;>
          first
            | rfl
            | (simp <;> omega)

/-- Witness for C1 on a concrete all-zero 21-landmark frame (folded count 0,
classified `OPEN`). -/
theorem detectGesture_classification_witness :
    ((List.replicate 21 (⟨0, 0⟩ : Landmark)).length = 21 ∧
      (List.replicate 21 (⟨0, 0⟩ : Landmark)).get? 0 = some ⟨0, 0⟩) ∧
    (detectGestureClassify (List.replicate 21 (⟨0, 0⟩ : Landmark)) = .ok .OPEN ↔
      foldedFingers ⟨0, 0⟩ ⟨0, 0⟩ ⟨0, 0⟩ ⟨0, 0⟩ ⟨0, 0⟩ ⟨0, 0⟩ ⟨0, 0⟩ ≤ 1) :=
  ⟨⟨by decide, by decide⟩,
    (detectGesture_classification (List.replicate 21 ⟨0, 0⟩) (by decide)
      ⟨0, 0⟩ ⟨0, 0⟩ ⟨0, 0⟩ ⟨0, 0⟩ ⟨0, 0⟩ ⟨0, 0⟩ ⟨0, 0⟩
      (by decide) (by decide) (by decide) (by decide) (by decide) (by decide)
      (by decide)).2.2.2.2.1⟩

/-- Claim C2: on an ambiguous classification (`NONE`) the previously
confirmed state is retained unchanged and nothing is emitted; on a definitive
`CLOSED`/`OPEN` classification the confirmed state updates (with an emission)
exactly when it differs from the current confirmed state. -/
theorem gesture_hysteresis (f : List Landmark) (prev raw : GestureState)
    (hc : detectGestureClassify f = .ok raw) :
    detectGestureRun f prev =
      .ok (if raw = .NONE ∨ raw = prev then (prev, none)
           else (raw, some raw)) := by
  unfold detectGestureRun
  rw [hc]
  unfold gestureStep
  by_cases h1 : raw = .NONE <;> by_cases h2 : raw = prev <;> simp [h1, h2]

/-- A concrete frame with folded count 2 (ambiguous): wrist at index 0,
middle knuckle at index 9 one unit away, tips 8 and 12 on the wrist
(folded), tips 16, 20 and thumb 4 far away (extended). -/
def ambiguousFrame : List Landmark :=
  [⟨0, 0⟩, ⟨1, 1⟩, ⟨1, 1⟩, ⟨1, 1⟩, ⟨0, 10⟩, ⟨1, 1⟩, ⟨1, 1⟩, ⟨1, 1⟩,
   ⟨0, 0⟩, ⟨0, 1⟩, ⟨1, 1⟩, ⟨1, 1⟩, ⟨0, 0⟩, ⟨1, 1⟩, ⟨1, 1⟩, ⟨1, 1⟩,
   ⟨0, 10⟩, ⟨1, 1⟩, ⟨1, 1⟩, ⟨1, 1⟩, ⟨0, 10⟩]

/-- Witness for C2: the ambiguous concrete frame after a confirmed `OPEN`
state leaves the state `OPEN` and emits nothing. -/
theorem gesture_hysteresis_witness :
    detectGestureClassify ambiguousFrame = .ok .NONE ∧
    detectGestureRun ambiguousFrame .OPEN =
      .ok (if GestureState.NONE = .NONE ∨ GestureState.NONE = .OPEN
           then (GestureState.OPEN, none)
           else (GestureState.NONE, some .NONE)) :=
  ⟨by norm_num [detectGestureClassify, ambiguousFrame, classifyLandmarks,
      foldedFingers, distSq, nonThumbRatioSq, thumbRatioSq],
    gesture_hysteresis ambiguousFrame .OPEN .NONE
      (by norm_num [detectGestureClassify, ambiguousFrame, classifyLandmarks,
        foldedFingers, distSq, nonThumbRatioSq, thumbRatioSq])⟩

/-- Counterexample for claim C3: a malformed frame (empty landmark list, so
certainly the wrong landmark count) makes the classifier throw — modelling
the JavaScript `TypeError` from `landmarks[0].x` on `undefined` — instead of
being treated as "no hand detected" with the state becoming `NONE`. -/
theorem malformed_frame_throws_cex :
    perceptionTick (some []) .OPEN = .error () ∧
    perceptionTick (some []) .OPEN ≠ .ok (.NONE, some .NONE) := by
  refine ⟨rfl, ?_⟩
  intro h
  simp [perceptionTick, detectGestureRun, detectGestureClassify] at h

/-- Claim C3 (amended): on a "no hand detected" tick the handler does not
throw and the confirmed state becomes `NONE` on that same tick; but a
malformed frame with fewer than 21 landmarks is not treated as "no hand" —
the landmark access throws (error) and the confirmed state is left
unchanged. -/
theorem noHand_resets_and_short_frame_throws (prev : GestureState)
    (f : List Landmark) (hf : f.length < 21) :
    perceptionTick none prev = .ok (.NONE, some .NONE) ∧
    perceptionTick (some f) prev = .error () := by
  refine ⟨rfl, ?_⟩
  have h20 : f[20]? = none := List.getElem?_eq_none (by omega)
  unfold perceptionTick detectGestureRun detectGestureClassify
  cases h0 : f[0]? <;> cases h9 : f[9]? <;> cases h8 : f[8]? <;>
    cases h12 : f[12]? <;> cases h16 : f[16]? <;>
      simp [h0, h9, h8, h12, h16, h20]

/-- Witness for the amended C3 at the concrete empty frame and prior state
`OPEN`. -/
theorem noHand_resets_and_short_frame_throws_witness :
    ([] : List Landmark).length < 21 ∧
    (perceptionTick none .OPEN = .ok (.NONE, some .NONE) ∧
      perceptionTick (some ([] : List Landmark)) .OPEN = .error ()) :=
  ⟨by decide, noHand_resets_and_short_frame_throws .OPEN [] (by decide)⟩

/-- Ordered insertion, the inner step of a stable sort: `x` is placed before
the first element `y` with `le x y`. -/
def insertSorted (le : Capsule → Capsule → Bool) (x : Capsule) :
    List Capsule → List Capsule
  | [] => [x]
  | y :: ys => if le x y then x :: y :: ys else y :: insertSorted le x ys

/-- Model of `[...capsules].sort((a, b) => dA - dB)` (ARView.tsx line 281):
ECMAScript `Array.prototype.sort` is specified stable, and a stable sort for
a total preorder is unique, so stable insertion sort is a faithful model. -/
def stableSort (le : Capsule → Capsule → Bool) : List Capsule → List Capsule
  | [] => []
  | x :: xs => insertSorted le x (stableSort le xs)

/-- The spec's explicit comparator-based selection: the first entity of the
list attaining the minimum key ("ascending distance, ties broken by stable
original order, first-seen wins"). -/
def firstMinBy (key : Capsule → ℚ) : List Capsule → Option Capsule
  | [] => none
  | x :: xs =>
    match firstMinBy key xs with
    | none => some x
    | some y => if key x ≤ key y then some x else some y

theorem head_insertSorted (le : Capsule → Capsule → Bool) (x : Capsule)
    (l : List Capsule) :
    (insertSorted le x l).head? =
      match l.head? with
      | none => some x
      | some y => if le x y then some x else some y := by
  cases l with
  | nil => rfl
  | cons y ys => cases hxy : le x y <;> simp [insertSorted, hxy]

theorem firstMinBy_eq_none (key : Capsule → ℚ) (l : List Capsule) :
    firstMinBy key l = none ↔ l = [] := by
  cases l with
  | nil => simp [firstMinBy]
  | cons x xs =>
    simp only [firstMinBy]
    cases firstMinBy key xs with
    | none => simp
    | some y => by_cases h : key x ≤ key y <;> simp [h]

theorem head_stableSort (key : Capsule → ℚ) (le : Capsule → Capsule → Bool)
    (hle : ∀ a b, le a b = decide (key a ≤ key b)) (l : List Capsule) :
    (stableSort le l).head? = firstMinBy key l := by
  induction l with
  | nil => rfl
  | cons x xs ih =>
    simp only [stableSort, firstMinBy]
    rw [head_insertSorted, ih]
    cases hm : firstMinBy key xs with
    | none => rfl
    | some y => by_cases h : key x ≤ key y <;> simp [hle, h]

/-- The selected element of `firstMinBy` is a member attaining the minimum
key, and everything before it in the original order has a strictly larger
key (first-seen-wins tie-break). -/
theorem firstMinBy_spec (key : Capsule → ℚ) (l : List Capsule) (m : Capsule)
    (hm : firstMinBy key l = some m) :
    (∀ c ∈ l, key m ≤ key c) ∧
      ∃ pre post, l = pre ++ m :: post ∧ ∀ c ∈ pre, key m < key c := by
  induction l generalizing m with
  | nil => simp [firstMinBy] at hm
  | cons x xs ih =>
    cases hfm : firstMinBy key xs with
    | none =>
      simp only [firstMinBy, hfm] at hm
      obtain rfl : x = m := Option.some.inj hm
      have hxs : xs = [] := (firstMinBy_eq_none key xs).mp hfm
      subst hxs
      exact ⟨by simp, [], [], by simp, by simp⟩
    | some y =>
      simp only [firstMinBy, hfm] at hm
      obtain ⟨hy_le, pre, post, heq, hpre⟩ := ih y hfm
      by_cases hxy : key x ≤ key y
      · rw [if_pos hxy] at hm
        obtain rfl : x = m := Option.some.inj hm
        refine ⟨?_, [], xs, by simp, by simp⟩
        intro c hc
        rcases List.mem_cons.mp hc with rfl | hc
        · exact le_refl _
        · exact le_trans hxy (hy_le c hc)
      · rw [if_neg hxy] at hm
        obtain rfl : y = m := Option.some.inj hm
        push_neg at hxy
        refine ⟨?_, x :: pre, post, by rw [heq, List.cons_append], ?_⟩
        · intro c hc
          rcases List.mem_cons.mp hc with rfl | hc
          · exact le_of_lt hxy
          · exact hy_le c hc
        · intro c hc
          rcases List.mem_cons.mp hc with rfl | hc
          · exact hxy
          · exact hpre c hc

/-- The comparator of ARView.tsx line 281-283:
`calculateDistance(userLocation, a.coordinates) -
 calculateDistance(userLocation, b.coordinates)`, i.e. `a` sorts no later
than `b` iff its distance is no larger.  `calculateDistance` lives in
`utils/geoUtils.ts`, which is not among the sources; it is abstracted as an
arbitrary pure distance function `cd`. -/
def distanceLe (cd : Coordinates → Coordinates → ℚ) (u : Coordinates)
    (a b : Capsule) : Bool :=
  decide (cd u a.coordinates ≤ cd u b.coordinates)

/-- The gesture-driven interaction effect of ARView.tsx lines 277-291: an
`OPEN` gesture with no active selection selects `sorted[0]` of the
distance-sorted capsule list (when non-empty); a `CLOSED` gesture with an
active selection clears it; otherwise the selection is unchanged. -/
def interactionStep (cd : Coordinates → Coordinates → ℚ)
    (userLocation : Coordinates) (handGesture : GestureState)
    (selectedCapsule : Option Capsule) (capsules : List Capsule) :
    Option Capsule :=
  if handGesture = .OPEN ∧ selectedCapsule = none then
    if 0 < capsules.length then
      (stableSort (distanceLe cd userLocation) capsules).head?
    else selectedCapsule
  else if handGesture = .CLOSED ∧ selectedCapsule.isSome then none
  else selectedCapsule

/-- Claim C4: whenever the current gesture is `OPEN`, no selection is active
and the capsule list is non-empty, the selection becomes the capsule with
minimum `distance(userLocation, entity.coordinates)`; when several tie at
the minimum, the first one in the original ordering is selected. -/
theorem open_gesture_selects_nearest (cd : Coordinates → Coordinates → ℚ)
    (u : Coordinates) (capsules : List Capsule) (h : capsules ≠ []) :
    ∃ m, interactionStep cd u .OPEN none capsules = some m ∧
      m ∈ capsules ∧
      (∀ c ∈ capsules, cd u m.coordinates ≤ cd u c.coordinates) ∧
      ∃ pre post, capsules = pre ++ m :: post ∧
        ∀ c ∈ pre, cd u m.coordinates < cd u c.coordinates := by
  obtain ⟨m, hm⟩ : ∃ m,
      firstMinBy (fun c => cd u c.coordinates) capsules = some m := by
    cases hfm : firstMinBy (fun c => cd u c.coordinates) capsules with
    | none =>
      exact absurd ((firstMinBy_eq_none _ capsules).mp hfm) h
    | some y => exact ⟨y, rfl⟩
  have hhead := head_stableSort (fun c => cd u c.coordinates)
    (distanceLe cd u) (fun a b => rfl) capsules
  have hsel : interactionStep cd u .OPEN none capsules = some m := by
    unfold interactionStep
    rw [if_pos ⟨rfl, rfl⟩, if_pos (List.length_pos.mpr h), hhead, hm]
  obtain ⟨hle, pre, post, heq, hpre⟩ := firstMinBy_spec _ capsules m hm
  exact ⟨m, hsel, by rw [heq]; simp, hle, pre, post, heq, hpre⟩

/-- Witness for C4: two capsules at key distances 10 and 30; the first is
selected. -/
theorem open_gesture_selects_nearest_witness :
    ([⟨1, ⟨10, 0⟩⟩, ⟨2, ⟨30, 0⟩⟩] : List Capsule) ≠ [] ∧
    ∃ m, interactionStep (fun _ b => b.latitude) ⟨0, 0⟩ .OPEN none
        [⟨1, ⟨10, 0⟩⟩, ⟨2, ⟨30, 0⟩⟩] = some m ∧
      m ∈ ([⟨1, ⟨10, 0⟩⟩, ⟨2, ⟨30, 0⟩⟩] : List Capsule) ∧
      (∀ c ∈ ([⟨1, ⟨10, 0⟩⟩, ⟨2, ⟨30, 0⟩⟩] : List Capsule),
        (fun (_ : Coordinates) (b : Coordinates) => b.latitude)
            (⟨0, 0⟩ : Coordinates) m.coordinates ≤
          (fun (_ : Coordinates) (b : Coordinates) => b.latitude)
            (⟨0, 0⟩ : Coordinates) c.coordinates) ∧
      ∃ pre post, ([⟨1, ⟨10, 0⟩⟩, ⟨2, ⟨30, 0⟩⟩] : List Capsule) =
          pre ++ m :: post ∧
        ∀ c ∈ pre,
          (fun (_ : Coordinates) (b : Coordinates) => b.latitude)
              (⟨0, 0⟩ : Coordinates) m.coordinates <
            (fun (_ : Coordinates) (b : Coordinates) => b.latitude)
              (⟨0, 0⟩ : Coordinates) c.coordinates :=
  ⟨List.cons_ne_nil _ _,
    open_gesture_selects_nearest (fun _ b => b.latitude) ⟨0, 0⟩
      [⟨1, ⟨10, 0⟩⟩, ⟨2, ⟨30, 0⟩⟩] (List.cons_ne_nil _ _)⟩

/-- The view states of the App shell (`ViewState` in `types.ts`). -/
inductive ViewState where
  | radar
  | create
  | viewCapsule
  | arView
  | profile
  | signalComposer
deriving DecidableEq

/-- The status-pill messages of the App scan path (src/unnamed/part_000). -/
inductive StatusMessage where
  | systemInit
  | scanningLocal
  | scanningCachedSector
  | signalsDetected (n : ℕ)
  | noTracesFound
  | gpsLocked
deriving DecidableEq

/-- The slice of the App component state driving the scan workflow
(src/unnamed/part_000).  `pendingScan` models the scheduled `setTimeout`
callback of `handleScan`: it records the value of `nearbyCapsules` captured
by the callback's closure at trigger time (the `useCallback` dependency). -/
structure AppState where
  location : Option Coordinates
  capsules : List Capsule
  nearbyCapsules : List Capsule
  isScanning : Bool
  currentView : ViewState
  statusMessage : StatusMessage
  pendingScan : Option (List Capsule)
deriving DecidableEq

/-- `handleScan` (part_000 lines 93-114): sets the scanning status message,
raises `isScanning`, and schedules the timeout whose closure captures the
current `nearbyCapsules`. -/
def handleScan (s : AppState) : AppState :=
  { s with
    statusMessage :=
      if s.location.isNone then .scanningCachedSector else .scanningLocal,
    isScanning := true,
    pendingScan := some s.nearbyCapsules }

/-- Firing of the 2000 ms scan timeout (part_000 lines 104-113): clears
`isScanning` and branches on the captured `nearbyCapsules`: non-empty emits
"signals detected" with the count and switches to the AR view, empty emits
"no traces" and leaves the view unchanged. -/
def scanTimeoutFire (s : AppState) : AppState :=
  match s.pendingScan with
  | none => s
  | some captured =>
    { s with
      isScanning := false,
      pendingScan := none,
      statusMessage :=
        if 0 < captured.length then .signalsDetected captured.length
        else .noTracesFound,
      currentView :=
        if 0 < captured.length then .arView else s.currentView }

/-- The nearby filter of part_000 lines 85-91: capsules within 1000 m of the
user location.  `calculateDistance` (utils/geoUtils.ts, not among the
sources) is abstracted as a pure distance function `cd`. -/
def computeNearby (cd : Coordinates → Coordinates → ℚ) (loc : Coordinates)
    (capsules : List Capsule) : List Capsule :=
  capsules.filter (fun c => decide (cd loc c.coordinates ≤ 1000))

/-- The effect of part_000 lines 85-91: recompute `nearbyCapsules` from
scratch, but only when a location fix is present. -/
def recomputeNearby (cd : Coordinates → Coordinates → ℚ) (s : AppState) :
    AppState :=
  match s.location with
  | none => s
  | some loc => { s with nearbyCapsules := computeNearby cd loc s.capsules }

/-- Environment events that can arrive during the scan latency window: a GPS
update or a change of the capsule store; each re-runs the nearby filter. -/
inductive EnvEvent where
  | gps (loc : Coordinates)
  | setCapsules (capsules : List Capsule)

/-- Apply one environment event to the App state. -/
def applyEnv (cd : Coordinates → Coordinates → ℚ) (e : EnvEvent)
    (s : AppState) : AppState :=
  match e with
  | .gps loc => recomputeNearby cd { s with location := some loc }
  | .setCapsules caps => recomputeNearby cd { s with capsules := caps }

/-- Apply a sequence of environment events. -/
def applyEnvAll (cd : Coordinates → Coordinates → ℚ) :
    List EnvEvent → AppState → AppState
  | [], s => s
  | e :: es, s => applyEnvAll cd es (applyEnv cd e s)

theorem applyEnv_fields (cd : Coordinates → Coordinates → ℚ) (e : EnvEvent)
    (s : AppState) :
    (applyEnv cd e s).pendingScan = s.pendingScan ∧
    (applyEnv cd e s).currentView = s.currentView ∧
    (applyEnv cd e s).isScanning = s.isScanning := by
  cases e with
  | gps loc => simp [applyEnv, recomputeNearby]
  | setCapsules caps =>
    simp only [applyEnv, recomputeNearby]
    cases s.location <;> simp

theorem applyEnvAll_fields (cd : Coordinates → Coordinates → ℚ)
    (es : List EnvEvent) : ∀ s : AppState,
    (applyEnvAll cd es s).pendingScan = s.pendingScan ∧
    (applyEnvAll cd es s).currentView = s.currentView ∧
    (applyEnvAll cd es s).isScanning = s.isScanning := by
  induction es with
  | nil => exact fun s => ⟨rfl, rfl, rfl⟩
  | cons e es ih =>
    intro s
    obtain ⟨h1, h2, h3⟩ := ih (applyEnv cd e s)
    obtain ⟨g1, g2, g3⟩ := applyEnv_fields cd e s
    exact ⟨h1.trans g1, h2.trans g2, h3.trans g3⟩

/-- Claim C5: a scan trigger enters the scanning state; after the latency
window the scanner leaves the scanning state (back to idle in both
branches), and branches on the nearby set: non-empty emits "signals
detected" with the count of nearby capsules and switches the view to AR
engagement, empty emits "no traces" and the view is unchanged. -/
theorem scan_workflow (s : AppState) :
    (handleScan s).isScanning = true ∧
    (scanTimeoutFire (handleScan s)).isScanning = false ∧
    (scanTimeoutFire (handleScan s)).pendingScan = none ∧
    (scanTimeoutFire (handleScan s)).statusMessage =
      (if 0 < s.nearbyCapsules.length
       then .signalsDetected s.nearbyCapsules.length else .noTracesFound) ∧
    (scanTimeoutFire (handleScan s)).currentView =
      (if 0 < s.nearbyCapsules.length then .arView else s.currentView) := by
  refine ⟨rfl, ?_, ?_, ?_, ?_⟩ <;> simp [handleScan, scanTimeoutFire]

/-- Claim C10: the scan outcome emitted after the latency window — the
reported signal count, the mode transition and the return to idle — is fully
determined by the nearby set captured at trigger time: any two runs that
agree on the captured set (and start in the same view) produce the same
outcome, regardless of the location or capsule-store updates that arrive
during the window. -/
theorem scan_outcome_determined (cd₁ cd₂ : Coordinates → Coordinates → ℚ)
    (s₁ s₂ : AppState) (es₁ es₂ : List EnvEvent)
    (hn : s₁.nearbyCapsules = s₂.nearbyCapsules)
    (hv : s₁.currentView = s₂.currentView) :
    (scanTimeoutFire (applyEnvAll cd₁ es₁ (handleScan s₁))).statusMessage =
      (scanTimeoutFire (applyEnvAll cd₂ es₂ (handleScan s₂))).statusMessage ∧
    (scanTimeoutFire (applyEnvAll cd₁ es₁ (handleScan s₁))).currentView =
      (scanTimeoutFire (applyEnvAll cd₂ es₂ (handleScan s₂))).currentView ∧
    (scanTimeoutFire (applyEnvAll cd₁ es₁ (handleScan s₁))).isScanning =
      false ∧
    (scanTimeoutFire (applyEnvAll cd₂ es₂ (handleScan s₂))).isScanning =
      false := by
  obtain ⟨hp₁, hv₁, -⟩ := applyEnvAll_fields cd₁ es₁ (handleScan s₁)
  obtain ⟨hp₂, hv₂, -⟩ := applyEnvAll_fields cd₂ es₂ (handleScan s₂)
  have hps₁ : (applyEnvAll cd₁ es₁ (handleScan s₁)).pendingScan =
      some s₁.nearbyCapsules := hp₁.trans rfl
  have hps₂ : (applyEnvAll cd₂ es₂ (handleScan s₂)).pendingScan =
      some s₂.nearbyCapsules := hp₂.trans rfl
  have hcv₁ : (applyEnvAll cd₁ es₁ (handleScan s₁)).currentView =
      s₁.currentView := hv₁.trans rfl
  have hcv₂ : (applyEnvAll cd₂ es₂ (handleScan s₂)).currentView =
      s₂.currentView := hv₂.trans rfl
  refine ⟨?_, ?_, ?_, ?_⟩ <;>
    simp [scanTimeoutFire, hps₁, hps₂, hcv₁, hcv₂, hn, hv]

/-- Witness for C10 at a concrete initial state with empty event lists. -/
theorem scan_outcome_determined_witness :
    (AppState.nearbyCapsules ⟨none, [], [], false, .radar, .systemInit, none⟩ =
      AppState.nearbyCapsules ⟨none, [], [], false, .radar, .systemInit, none⟩ ∧
     AppState.currentView ⟨none, [], [], false, .radar, .systemInit, none⟩ =
      AppState.currentView ⟨none, [], [], false, .radar, .systemInit, none⟩) ∧
    ((scanTimeoutFire (applyEnvAll (fun _ _ => 0) []
        (handleScan ⟨none, [], [], false, .radar, .systemInit, none⟩))).statusMessage =
      (scanTimeoutFire (applyEnvAll (fun _ _ => 0) []
        (handleScan ⟨none, [], [], false, .radar, .systemInit, none⟩))).statusMessage ∧
     (scanTimeoutFire (applyEnvAll (fun _ _ => 0) []
        (handleScan ⟨none, [], [], false, .radar, .systemInit, none⟩))).currentView =
      (scanTimeoutFire (applyEnvAll (fun _ _ => 0) []
        (handleScan ⟨none, [], [], false, .radar, .systemInit, none⟩))).currentView ∧
     (scanTimeoutFire (applyEnvAll (fun _ _ => 0) []
        (handleScan ⟨none, [], [], false, .radar, .systemInit, none⟩))).isScanning =
      false ∧
     (scanTimeoutFire (applyEnvAll (fun _ _ => 0) []
        (handleScan ⟨none, [], [], false, .radar, .systemInit, none⟩))).isScanning =
      false) :=
  ⟨⟨rfl, rfl⟩,
    scan_outcome_determined (fun _ _ => 0) (fun _ _ => 0) _ _ [] [] rfl rfl⟩

/-- Projection angle of ARView.tsx line 390: compass bearing converted to a
mathematical angle, `(90 - bearing) * (Math.PI / 180)`. -/
noncomputable def angleRad (bearing : ℝ) : ℝ := (90 - bearing) * (Real.pi / 180)

/-- `visualDistance` of ARView.tsx line 391:
`Math.max(5, Math.min(distance / 5, 50))`. -/
noncomputable def visualDistance (distance : ℝ) : ℝ :=
  max 5 (min (distance / 5) 50)

/-- The spec's clamp combinator: `clamp(x, lo, hi) = max lo (min x hi)`. -/
noncomputable def clamp (lo hi x : ℝ) : ℝ := max lo (min x hi)

/-- Ground-plane anchor position of ARView.tsx lines 393-394:
`x = cos(angle) * visualDistance`, `z = -sin(angle) * visualDistance`. -/
noncomputable def capsulePosition (distance bearing : ℝ) : ℝ × ℝ :=
  (Real.cos (angleRad bearing) * visualDistance distance,
   -Real.sin (angleRad bearing) * visualDistance distance)

/-- Claim C6: the anchor projection computes
`angle = (90 - bearing) * pi / 180`,
`visualDistance = clamp(distance / 5, 5, 50)` and
`position = (cos(angle) * visualDistance, -sin(angle) * visualDistance)`;
for every nonnegative raw distance the projected visual distance lies in
`[5, 50]`. -/
theorem anchor_projection (bearing d : ℝ) (hd : 0 ≤ d) :
    angleRad bearing = (90 - bearing) * (Real.pi / 180) ∧
    visualDistance d = clamp 5 50 (d / 5) ∧
    capsulePosition d bearing =
      (Real.cos (angleRad bearing) * visualDistance d,
       -Real.sin (angleRad bearing) * visualDistance d) ∧
    5 ≤ visualDistance d ∧ visualDistance d ≤ 50 := by
  refine ⟨rfl, rfl, rfl, le_max_left _ _, ?_⟩
  exact max_le (by norm_num) (min_le_right _ _)

/-- Witness for C6 at bearing 90 and raw distance 0. -/
theorem anchor_projection_witness :
    (0 : ℝ) ≤ 0 ∧
    (angleRad 90 = (90 - 90) * (Real.pi / 180) ∧
     visualDistance 0 = clamp 5 50 (0 / 5) ∧
     capsulePosition 0 90 =
       (Real.cos (angleRad 90) * visualDistance 0,
        -Real.sin (angleRad 90) * visualDistance 0) ∧
     5 ≤ visualDistance 0 ∧ visualDistance 0 ≤ 50) :=
  ⟨le_refl 0, anchor_projection 90 0 (le_refl 0)⟩

/-- The unlock decision of ARView.tsx line 399 (and the detail panel, line
628), on a real distance in metres. -/
def arViewIsUnlockable (distance : ℝ) : Prop := distance < 50

/-- The unlock decision of CapsuleList (ARView.tsx bundle, lines 736-741):
the distance is `Infinity` when no location fix is available, modelled by
`⊤` in `WithTop ℝ`. -/
def capsuleListIsUnlockable (distance : WithTop ℝ) : Prop :=
  distance < ((50 : ℝ) : WithTop ℝ)

/-- Claim C7: at every place the unlock decision is made, `isUnlockable(d)`
holds exactly when `d < 50`, with a strict boundary: 49 m is unlockable,
exactly 50 m is not (and the `Infinity` fallback of the list view is
locked). -/
theorem proximity_gate (d : ℝ) :
    (arViewIsUnlockable d ↔ d < 50) ∧
    (capsuleListIsUnlockable ((d : ℝ) : WithTop ℝ) ↔ d < 50) ∧
    arViewIsUnlockable 49 ∧ ¬arViewIsUnlockable 50 ∧
    capsuleListIsUnlockable ((49 : ℝ) : WithTop ℝ) ∧
    ¬capsuleListIsUnlockable ((50 : ℝ) : WithTop ℝ) ∧
    ¬capsuleListIsUnlockable ⊤ := by
  refine ⟨Iff.rfl, ?_, by norm_num [arViewIsUnlockable],
    by norm_num [arViewIsUnlockable], ?_, ?_, ?_⟩
  · exact WithTop.coe_lt_coe
  · exact WithTop.coe_lt_coe.mpr (by norm_num)
  · intro h
    exact absurd (WithTop.coe_lt_coe.mp h) (by norm_num)
  · intro h
    exact absurd h (by simp [capsuleListIsUnlockable])

/-- Claim C8: the nearby set contains exactly the capsules whose distance
from the user location is at most 1000 m (inclusive boundary), and the
effect recomputes it from scratch — the result is independent of the
previous nearby set. -/
theorem nearby_characterization (cd : Coordinates → Coordinates → ℚ)
    (loc : Coordinates) (caps : List Capsule) :
    (∀ c, c ∈ computeNearby cd loc caps ↔
      c ∈ caps ∧ cd loc c.coordinates ≤ 1000) ∧
    (∀ prevNearby scanning view msg pending,
      (recomputeNearby cd
        ⟨some loc, caps, prevNearby, scanning, view, msg,
          pending⟩).nearbyCapsules = computeNearby cd loc caps) := by
  constructor
  · intro c
    simp [computeNearby, List.mem_filter]
  · intro prevNearby scanning view msg pending
    simp [recomputeNearby]

/-- Modelled from the spec: `calculateDistance` of `utils/geoUtils.ts`
(missing from the sources; only its callers are present): spec section 4.1
specifies "haversine great-circle distance, Earth radius 6 371 000 m". -/
noncomputable def toRadians (deg : ℚ) : ℝ := (deg : ℝ) * Real.pi / 180

/-- Modelled from the spec: haversine great-circle distance with Earth
radius 6 371 000 m (`calculateDistance` of the missing geoUtils module). -/
noncomputable def calculateDistance (a b : Coordinates) : ℝ :=
  let lat1 := toRadians a.latitude
  let lat2 := toRadians b.latitude
  let dLat := toRadians (b.latitude - a.latitude)
  let dLon := toRadians (b.longitude - a.longitude)
  let h := Real.sin (dLat / 2) ^ 2 +
    Real.cos lat1 * Real.cos lat2 * Real.sin (dLon / 2) ^ 2
  6371000 * (2 * Real.arcsin (Real.sqrt h))

/-- CapsuleList's distance (ARView.tsx bundle, lines 736-738):
`currentLocation ? calculateDistance(currentLocation, capsule.coordinates)
: Infinity`; JavaScript `Infinity` is modelled by `⊤`. -/
noncomputable def capsuleListDistance (currentLocation : Option Coordinates)
    (c : Capsule) : WithTop ℝ :=
  match currentLocation with
  | some loc => ((calculateDistance loc c.coordinates : ℝ) : WithTop ℝ)
  | none => ⊤

/-- `handleSaveCapsule`'s location fallback (part_000 line 120):
`location || { latitude: 0, longitude: 0 }`. -/
def activeLocation (location : Option Coordinates) : Coordinates :=
  match location with
  | some loc => loc
  | none => ⟨0, 0⟩

/-- Counterexample for claim C9: with no geolocation fix, the CapsuleList
caller does not substitute the sentinel coordinate (0,0) — it substitutes an
infinite distance, which differs from the distance the sentinel would give
(here 0, for a capsule anchored at the origin). -/
theorem sentinel_substitution_cex :
    capsuleListDistance none (⟨0, ⟨0, 0⟩⟩ : Capsule) ≠
      ((calculateDistance ⟨0, 0⟩ (⟨0, ⟨0, 0⟩⟩ : Capsule).coordinates : ℝ) :
        WithTop ℝ) := by
  have h0 : calculateDistance ⟨0, 0⟩ (⟨0, ⟨0, 0⟩⟩ : Capsule).coordinates = 0 := by
    simp [calculateDistance, toRadians]
  rw [h0]
  simp only [capsuleListDistance]
  exact WithTop.top_ne_coe

/-- Claim C9 (amended): when no geolocation fix is available,
`handleSaveCapsule` substitutes the sentinel coordinate (0,0) for the user
location, while `CapsuleList` instead substitutes an infinite distance
(rendering the capsule locked); the haversine distance is total and
evaluates to 0 on the degenerate sentinel pair, so neither path faults. -/
theorem sentinel_fallbacks :
    activeLocation none = (⟨0, 0⟩ : Coordinates) ∧
    (∀ loc, activeLocation (some loc) = loc) ∧
    (∀ c, capsuleListDistance none c = ⊤) ∧
    calculateDistance ⟨0, 0⟩ ⟨0, 0⟩ = 0 := by
  refine ⟨rfl, fun loc => rfl, fun c => rfl, ?_⟩
  simp [calculateDistance, toRadians]

end TimeCapsule
